import Mathlib

/-!
Verification of the Session & Artifact Persistence Subsystem of pdfcraft.

The definitions below are a shallow embedding of the TypeScript source:
the OPFS file-store wrapper, the IndexedDB signature store, the pending-file
handoff context, and the mount / message-handling logic of the two tool
views (EditPDFTool and SignPDFTool). Asynchronous effects are made explicit:
stores are passed as values, and the success or failure of an individual
storage operation is an explicit boolean input.
-/

deriving instance DecidableEq for Except

namespace PDFCraft

/-- Raw file content, a sequence of bytes. -/
abbrev Bytes := List Nat

/-- A blob as handed around by the code: raw bytes plus a MIME type string. -/
structure Blob where
  bytes : Bytes
  type : String
  deriving DecidableEq, Repr

/-- A DOM File: a blob with a display name. -/
structure File where
  name : String
  bytes : Bytes
  type : String
  deriving DecidableEq, Repr

/-! ## Sandboxed File Store (OPFS wrapper, src/unnamed/part_000)

OPFS is name-keyed byte storage: it persists bytes only, and when a file is
read back its MIME type is inferred by the environment from the file-name
extension. We model the store as a map from names to bytes. -/

def OPFSStore := String → Option Bytes

def emptyOPFS : OPFSStore := fun _ => none

/-- MIME type the environment infers from a file name when reading it back:
a name with the .pdf extension comes back typed application/pdf. -/
def mimeForName (n : String) : String :=
  if ".pdf".data.isSuffixOf n.data then "application/pdf" else ""

inductive OPFSError
  | notFound
  deriving DecidableEq, Repr

/-- saveFileToOPFS (part_000, lines 38-49): getFileHandle with create, then
createWritable (which starts from empty content), write the blob, close.
The close commits, so the write fully replaces any prior bytes at the name
before the operation resolves. -/
def saveFileToOPFS (name : String) (blob : Bytes) (s : OPFSStore) : OPFSStore :=
  fun m => if m = name then some blob else s m

/-- loadFileFromOPFS (part_000, lines 54-59): getFileHandle without create
rejects with NotFound when the name is absent; getFile returns the stored
bytes with the extension-derived type. -/
def loadFileFromOPFS (name : String) (s : OPFSStore) : Except OPFSError Blob :=
  match s name with
  | some b => Except.ok { bytes := b, type := mimeForName name }
  | none => Except.error OPFSError.notFound

/-- deleteFileFromOPFS (part_000, lines 64-67): a bare removeEntry, which
rejects with NotFound when no entry with that name exists. -/
def deleteFileFromOPFS (name : String) (s : OPFSStore) : Except OPFSError OPFSStore :=
  match s name with
  | some _ => Except.ok (fun m => if m = name then none else s m)
  | none => Except.error OPFSError.notFound

/-! ## Pending-file handoff (src/src/lib/contexts/PendingFileContext.tsx) -/

structure PendingFile where
  file : File
  toolSlug : String
  fileName : String
  deriving DecidableEq, Repr

/-- setPendingFile (lines 34-36): unconditionally replaces the slot. -/
def setPendingFile (file : File) (toolSlug fileName : String) : Option PendingFile :=
  some { file := file, toolSlug := toolSlug, fileName := fileName }

/-- consumePendingFile (lines 38-45): returns and clears the slot only when
the stored destination slug matches; otherwise returns none and leaves the
slot untouched. Result: the returned file (if any) and the new slot state. -/
def consumePendingFile (toolSlug : String) (s : Option PendingFile) :
    Option File × Option PendingFile :=
  match s with
  | some p => if p.toolSlug = toolSlug then (some p.file, none) else (none, s)
  | none => (none, s)

/-- clearPendingFile (lines 47-49). -/
def clearPendingFile (_s : Option PendingFile) : Option PendingFile := none

/-! ## Tool-view session recovery -/

def SESSION_FILE_NAME_EDIT : String := "current_edit_session.pdf"

def SESSION_FILE_NAME_SIGN : String := "current_sign_session.pdf"

inductive MountOutcome
  | ready (file : File)
  | awaitingUpload
  deriving DecidableEq, Repr

structure MountResult where
  pending : Option PendingFile
  store : OPFSStore
  outcome : MountOutcome

/-- The File the edit tool materializes from a restored session blob
(EditPDFTool.tsx line 137): fixed display name, type defaulted when empty. -/
def restoredFileEdit (b : Blob) : File :=
  { name := "restored_document.pdf", bytes := b.bytes,
    type := if b.type = "" then "application/pdf" else b.type }

/-- The File the sign tool materializes from a restored session blob
(SignPDFTool.tsx line 79): fixed display name, hard-coded PDF type. -/
def restoredFileSign (b : Blob) : File :=
  { name := "restored_document.pdf", bytes := b.bytes, type := "application/pdf" }

/-- EditPDFTool.initializeFile (lines 117-163): first consume a pending
handoff for slug edit-pdf; when one exists, use it as the working file,
persist it to the session name fire-and-forget (saveOk tells whether that
write succeeds; its failure is only logged) and return without attempting a
restore. Otherwise try to load the session snapshot: a successful load
yields the restored file, any load failure falls through to the upload
screen. -/
def initializeFile (pending : Option PendingFile) (saveOk : Bool)
    (store : OPFSStore) : MountResult :=
  match consumePendingFile "edit-pdf" pending with
  | (some f, pending2) =>
      { pending := pending2,
        store := if saveOk then saveFileToOPFS SESSION_FILE_NAME_EDIT f.bytes store else store,
        outcome := MountOutcome.ready f }
  | (none, pending2) =>
      match loadFileFromOPFS SESSION_FILE_NAME_EDIT store with
      | Except.ok b =>
          { pending := pending2, store := store,
            outcome := MountOutcome.ready (restoredFileEdit b) }
      | Except.error _ =>
          { pending := pending2, store := store, outcome := MountOutcome.awaitingUpload }

/-- SignPDFTool.restoreSession (lines 71-110): goes straight to the session
snapshot; the pending-file handoff is never consulted by this tool view. -/
def restoreSession (pending : Option PendingFile) (store : OPFSStore) : MountResult :=
  match loadFileFromOPFS SESSION_FILE_NAME_SIGN store with
  | Except.ok b =>
      { pending := pending, store := store,
        outcome := MountOutcome.ready (restoredFileSign b) }
  | Except.error _ =>
      { pending := pending, store := store, outcome := MountOutcome.awaitingUpload }

structure ClearResult where
  store : OPFSStore
  file : Option File
  error : Option String

/-- EditPDFTool.handleClear (lines 270-282): delete the session name,
catching and ignoring any failure (the file might not exist), then reset the
view state to empty. -/
def handleClear (store : OPFSStore) : ClearResult :=
  let store2 :=
    match deleteFileFromOPFS SESSION_FILE_NAME_EDIT store with
    | Except.ok s2 => s2
    | Except.error _ => store
  { store := store2, file := none, error := none }

/-! ## Backup / clear interleavings (claim C1)

The PDF_SESSION_BACKUP branch of handleMessage (EditPDFTool.tsx lines 42-48)
fires saveFileToOPFS on the session name unconditionally; handleClear deletes
it. The two are not mutually exclusive, so we model an interleaving as a list
of atomic store effects, each being the completion of one of the two. -/

inductive SessionOp
  | backupWrite (blob : Bytes)
  | clearSession

/-- Effect of one completed operation on the file store. -/
def applyOp (s : OPFSStore) : SessionOp → OPFSStore
  | SessionOp.backupWrite b => saveFileToOPFS SESSION_FILE_NAME_EDIT b s
  | SessionOp.clearSession => (handleClear s).store

def runOps (s : OPFSStore) : List SessionOp → OPFSStore
  | [] => s
  | op :: rest => runOps (applyOp s op) rest

/-! ## PDF_SAVE_DATA handler (claim C5)

The PDF_SAVE_DATA branch of handleMessage (SignPDFTool.tsx lines 124-153,
EditPDFTool.tsx lines 50-75): derive an output name (tool-specific
timestamped default when no filename, or when the filename is the empty
string, which the JS or-operator treats as absent), save the blob under it,
save the same blob under the session name, then offer a download through an
object URL that a timeout later revokes. The whole branch is wrapped in
try/catch: a failure sets a single error message and the handler returns
normally. ok1, ok2, ok3 tell whether each of the three steps succeeds, and
em is the message of the exception a failing step throws. -/

def derivedOutputName (stem : String) (now : Nat) (filename : Option String) : String :=
  match filename with
  | some f => if f = "" then stem ++ toString now ++ ".pdf" else f
  | none => stem ++ toString now ++ ".pdf"

structure SaveHandlerResult where
  store : OPFSStore
  error : Option String
  download : Option (String × Bytes)
  urlReleased : Bool
  crashed : Bool

def handleSaveData (stem sessionName : String) (blob : Bytes)
    (filename : Option String) (now : Nat) (ok1 ok2 ok3 : Bool) (em : String)
    (store : OPFSStore) : SaveHandlerResult :=
  let savedName := derivedOutputName stem now filename
  if ok1 then
    let s1 := saveFileToOPFS savedName blob store
    if ok2 then
      let s2 := saveFileToOPFS sessionName blob s1
      if ok3 then
        { store := s2, error := none, download := some (savedName, blob),
          urlReleased := true, crashed := false }
      else
        { store := s2, error := some ("Failed to save file: " ++ em),
          download := none, urlReleased := false, crashed := false }
    else
      { store := s1, error := some ("Failed to save file: " ++ em),
        download := none, urlReleased := false, crashed := false }
  else
    { store := store, error := some ("Failed to save file: " ++ em),
      download := none, urlReleased := false, crashed := false }

/-! ## Structured Artifact Store (src/src/lib/storage/signature-store.ts)

IndexedDB object store keyed by the record id (keyPath id). The database
keeps records ordered by key, so getAll returns them in ascending id order
before the handler sorts them. Each operation opens the database, runs a
single transaction, and registers db.close() only on the oncomplete event
of that transaction, so close runs exactly when the transaction commits.
A request or transaction failure rejects the promise without closing.
We therefore model each operation with an explicit transaction-success
input txOk and record in the result whether close was reached. -/

structure StoredSignature where
  id : String
  type : String
  data : String
  createdAt : Nat
  width : Option Nat
  height : Option Nat
  deriving DecidableEq, Repr

abbrev SigRecords := List StoredSignature

/-- The caller-supplied part of a record: no id, no createdAt (lines 43-51). -/
structure NewSignature where
  type : String
  data : String
  width : Option Nat
  height : Option Nat
  deriving DecidableEq, Repr

/-- Id generation (line 45): sig_ plus the clock value plus a random
suffix. now and rand are inputs, the values the environment clock and
random generator produce during this call. -/
def mkSignatureId (now : Nat) (rand : String) : String :=
  "sig_" ++ toString now ++ "_" ++ rand

/-- Result of one store operation: the settled promise, and whether the
operation closed the database connection before settling it. -/
structure DBResult (α : Type) where
  result : Except String α
  dbClosed : Bool
  deriving Repr

def hasId (l : SigRecords) (i : String) : Bool :=
  l.any fun r => r.id = i

/-- Lexicographic order on char sequences by code point: the order
IndexedDB compares string keys in. -/
def ltChars : List Char → List Char → Bool
  | _, [] => false
  | [], _ :: _ => true
  | a :: as, b :: bs =>
      if a.toNat < b.toNat then true
      else if b.toNat < a.toNat then false
      else ltChars as bs

def keyLt (a b : String) : Bool := ltChars a.data b.data

/-- Key-ordered insert, modelling the b-tree order IndexedDB keeps records
in (add is called only after ruling out an equal key, so no tie arises). -/
def insertByKey (e : StoredSignature) : SigRecords → SigRecords
  | [] => [e]
  | x :: xs => if keyLt e.id x.id then e :: x :: xs else x :: insertByKey e xs

/-- saveSignature (lines 43-62): build the entry with a generated id and
the current clock value, then add it in a readwrite transaction. add fails
on an existing key; a failed request (duplicate key or txOk false) rejects
without closing; on success the id is resolved and close runs on the
transaction oncomplete event. -/
def saveSignature (sig : NewSignature) (now : Nat) (rand : String)
    (txOk : Bool) (l : SigRecords) : DBResult (String × SigRecords) :=
  let i := mkSignatureId now rand
  let entry : StoredSignature :=
    { id := i, type := sig.type, data := sig.data, createdAt := now,
      width := sig.width, height := sig.height }
  if hasId l i then
    { result := Except.error "Failed to save signature", dbClosed := false }
  else if txOk then
    { result := Except.ok (i, insertByKey entry l), dbClosed := true }
  else
    { result := Except.error "Failed to save signature", dbClosed := false }

/-- Stable insertion into a list already in non-increasing createdAt order:
skip over strictly newer records, stop at the first record that is not
strictly newer, so among equal timestamps the earlier input position wins.
Any stable sort realizes the engine sort with comparator
b.createdAt - a.createdAt (lines 74-75), and engine sorts are stable. -/
def insertDesc (e : StoredSignature) : SigRecords → SigRecords
  | [] => [e]
  | x :: xs =>
      if e.createdAt < x.createdAt then x :: insertDesc e xs else e :: x :: xs

def sortNewestFirst : SigRecords → SigRecords
  | [] => []
  | x :: xs => insertDesc x (sortNewestFirst xs)

/-- getAllSignatures (lines 64-81): getAll in a readonly transaction
(records come back in key order), then sort newest first in place; failure
rejects without closing. -/
def getAllSignatures (txOk : Bool) (l : SigRecords) : DBResult SigRecords :=
  if txOk then
    { result := Except.ok (sortNewestFirst l), dbClosed := true }
  else
    { result := Except.error "Failed to load signatures", dbClosed := false }

/-- deleteSignature (lines 83-95): delete by key in a readwrite
transaction; an IndexedDB delete on a missing key still succeeds. -/
def deleteSignature (i : String) (txOk : Bool) (l : SigRecords) : DBResult SigRecords :=
  if txOk then
    { result := Except.ok (l.filter fun r => r.id ≠ i), dbClosed := true }
  else
    { result := Except.error "Failed to delete signature", dbClosed := false }

end PDFCraft

namespace PDFCraft

/-! # Theorems for the claims -/

/-- C6: For all names n and blobs b1, b2, the sequence
save(n,b1); save(n,b2); load(n) yields exactly the bytes b2 (with the
extension-derived type): a save fully replaces prior bytes, no merge, and in
this single-owner model no partial write is observable. -/
theorem C6_save_overwrites_totally (n : String) (b1 b2 : Bytes) (s : OPFSStore) :
    loadFileFromOPFS n (saveFileToOPFS n b2 (saveFileToOPFS n b1 s)) =
      Except.ok { bytes := b2, type := mimeForName n } := by
  simp [loadFileFromOPFS, saveFileToOPFS]

/-- C4 counterexample: delete on a never-written name does not succeed: on
the empty store, deleteFileFromOPFS rejects with NotFound. -/
theorem C4_counterexample :
    deleteFileFromOPFS "ghost.pdf" emptyOPFS = Except.error OPFSError.notFound := rfl

/-- C4 (amended): delete on an absent name fails with NotFound rather than
succeeding; the clearing caller (handleClear) catches and ignores that
failure, so clearing observably succeeds and leaves the session name absent. -/
theorem C4_delete_absent_fails_callers_tolerate (n : String) (s : OPFSStore)
    (h : s n = none) :
    deleteFileFromOPFS n s = Except.error OPFSError.notFound
      ∧ (handleClear s).store SESSION_FILE_NAME_EDIT = none
      ∧ (handleClear s).file = none := by
  refine ⟨by simp [deleteFileFromOPFS, h], ?_, rfl⟩
  unfold handleClear deleteFileFromOPFS
  cases hs : s SESSION_FILE_NAME_EDIT with
  | none => simpa using hs
  | some b => simp

/-- Witness for C4: the amended statement evaluated on the empty store. -/
theorem C4_witness :
    deleteFileFromOPFS "ghost.pdf" emptyOPFS = Except.error OPFSError.notFound
      ∧ (handleClear emptyOPFS).store SESSION_FILE_NAME_EDIT = none
      ∧ (handleClear emptyOPFS).file = none :=
  C4_delete_absent_fails_callers_tolerate "ghost.pdf" emptyOPFS rfl

/-- C3: the pending-handoff consume operation: with no prior setPending,
consume returns none and changes nothing; after setPending(f, t), a consume
with a different slug t2 returns none and leaves the handoff intact; a
consume with t returns f and clears the slot; a further consume with t on
the cleared slot returns none. -/
theorem C3_consume_semantics (f : File) (t t2 dn : String) (h : t2 ≠ t) :
    consumePendingFile t none = (none, none)
      ∧ consumePendingFile t2 (setPendingFile f t dn) = (none, setPendingFile f t dn)
      ∧ consumePendingFile t (setPendingFile f t dn) = (some f, none)
      ∧ consumePendingFile t (consumePendingFile t (setPendingFile f t dn)).2 = (none, none) := by
  have h2 : ¬ t = t2 := fun hs => h hs.symm
  refine ⟨rfl, ?_, ?_, ?_⟩ <;>
    simp [consumePendingFile, setPendingFile, h2]

/-- Witness for C3: the consume semantics at a concrete file and slugs. -/
theorem C3_witness :
    consumePendingFile "sign" none = (none, none)
      ∧ consumePendingFile "edit"
          (setPendingFile { name := "a.pdf", bytes := [1], type := "application/pdf" } "sign" "a.pdf")
          = (none, setPendingFile { name := "a.pdf", bytes := [1], type := "application/pdf" } "sign" "a.pdf")
      ∧ consumePendingFile "sign"
          (setPendingFile { name := "a.pdf", bytes := [1], type := "application/pdf" } "sign" "a.pdf")
          = (some { name := "a.pdf", bytes := [1], type := "application/pdf" }, none)
      ∧ consumePendingFile "sign"
          (consumePendingFile "sign"
            (setPendingFile { name := "a.pdf", bytes := [1], type := "application/pdf" } "sign" "a.pdf")).2
          = (none, none) :=
  C3_consume_semantics { name := "a.pdf", bytes := [1], type := "application/pdf" }
    "sign" "edit" "a.pdf" (by decide)

/-- C2 counterexample: the sign tool view does not satisfy the claim. With a
pending handoff destined for the sign tool outstanding, the sign tool mount
(restoreSession) leaves the handoff unconsumed — its mount logic never
consults the handoff slot at all (for any slug) — and on an empty store it
falls through to AwaitingUpload instead of going Ready with the handoff
file. -/
theorem C2_counterexample :
    (restoreSession
        (setPendingFile { name := "doc.pdf", bytes := [1], type := "application/pdf" } "sign" "doc.pdf")
        emptyOPFS).pending
      = setPendingFile { name := "doc.pdf", bytes := [1], type := "application/pdf" } "sign" "doc.pdf"
      ∧ (restoreSession
          (setPendingFile { name := "doc.pdf", bytes := [1], type := "application/pdf" } "sign" "doc.pdf")
          emptyOPFS).outcome = MountOutcome.awaitingUpload := ⟨rfl, rfl⟩

/-- C2 (amended): the edit tool view behaves as the claim states: on mount
with a matching pending handoff, it consumes the handoff (the slot is left
empty), uses the handoff file as the working document whatever the store
holds (so no session restore is attempted), persists it to the edit session
name fire-and-forget (on failure the store is untouched and the mount still
reaches Ready). The sign tool view, however, never consults the handoff:
its mount leaves the slot exactly as it was. -/
theorem C2_edit_consumes_handoff_sign_never (f : File) (dn : String)
    (store : OPFSStore) (p : Option PendingFile) :
    (initializeFile (setPendingFile f "edit-pdf" dn) true store).pending = none
      ∧ (initializeFile (setPendingFile f "edit-pdf" dn) true store).outcome = MountOutcome.ready f
      ∧ (initializeFile (setPendingFile f "edit-pdf" dn) true store).store SESSION_FILE_NAME_EDIT
          = some f.bytes
      ∧ (initializeFile (setPendingFile f "edit-pdf" dn) false store).pending = none
      ∧ (initializeFile (setPendingFile f "edit-pdf" dn) false store).outcome = MountOutcome.ready f
      ∧ (initializeFile (setPendingFile f "edit-pdf" dn) false store).store = store
      ∧ (restoreSession p store).pending = p := by
  refine ⟨?_, ?_, ?_, ?_, ?_, ?_, ?_⟩ <;>
    first
      | simp [initializeFile, consumePendingFile, setPendingFile, saveFileToOPFS]
      | (unfold restoreSession; cases loadFileFromOPFS SESSION_FILE_NAME_SIGN store <;> rfl)

/-- C1 counterexample: an interleaving in which the explicit clear completes
before a SessionBackup write does: starting from an empty store, a backup
write lands, the user clears, and then a late backup write completes. The
reserved edit session name ends up populated with the late backup bytes, and
the next mount does not reach AwaitingUpload (it restores and goes Ready):
the late write resurrects the cleared session. -/
theorem C1_counterexample :
    (runOps emptyOPFS
        [SessionOp.backupWrite [1], SessionOp.clearSession, SessionOp.backupWrite [7]])
        SESSION_FILE_NAME_EDIT = some [7]
      ∧ (initializeFile none true
          (runOps emptyOPFS
            [SessionOp.backupWrite [1], SessionOp.clearSession, SessionOp.backupWrite [7]])).outcome
          ≠ MountOutcome.awaitingUpload := by
  constructor
  · rfl
  · decide

/-- C1 (amended): the handlers do not discard backup writes after a clear: a
SessionBackup write completing after an explicit clear re-populates the
reserved session name with the backup bytes, and the next mount restores
that backup and reaches Ready with it; the stale entry is removed only by a
further clear, after which a mount reaches AwaitingUpload. -/
theorem C1_late_backup_resurrects_until_next_clear (s : OPFSStore) (b : Bytes) :
    (applyOp (applyOp s SessionOp.clearSession) (SessionOp.backupWrite b))
        SESSION_FILE_NAME_EDIT = some b
      ∧ (initializeFile none true
          (applyOp (applyOp s SessionOp.clearSession) (SessionOp.backupWrite b))).outcome
          = MountOutcome.ready
              { name := "restored_document.pdf", bytes := b, type := "application/pdf" }
      ∧ (applyOp (applyOp (applyOp s SessionOp.clearSession) (SessionOp.backupWrite b))
            SessionOp.clearSession) SESSION_FILE_NAME_EDIT = none
      ∧ (initializeFile none true
          (applyOp (applyOp (applyOp s SessionOp.clearSession) (SessionOp.backupWrite b))
            SessionOp.clearSession)).outcome = MountOutcome.awaitingUpload := by
  have hmime : mimeForName SESSION_FILE_NAME_EDIT = "application/pdf" := by decide
  refine ⟨?_, ?_, ?_, ?_⟩ <;>
    simp [applyOp, handleClear, deleteFileFromOPFS, saveFileToOPFS, initializeFile,
      consumePendingFile, loadFileFromOPFS, restoredFileEdit, hmime]

/-- C10: whenever either tool view restores a session snapshot on mount, the
working document it materializes is a File with the fixed display name
restored_document.pdf and the PDF MIME type, for any snapshot bytes b and
any underlying store — in particular independent of whatever display name
the document had when it was uploaded or handed off (the store only keeps
bytes, and the restore code supplies the constant name). -/
theorem C10_restore_fixes_name_and_type (p : Option PendingFile)
    (store : OPFSStore) (b : Bytes) :
    (restoreSession p (saveFileToOPFS SESSION_FILE_NAME_SIGN b store)).outcome
        = MountOutcome.ready
            { name := "restored_document.pdf", bytes := b, type := "application/pdf" }
      ∧ (initializeFile none true (saveFileToOPFS SESSION_FILE_NAME_EDIT b store)).outcome
        = MountOutcome.ready
            { name := "restored_document.pdf", bytes := b, type := "application/pdf" } := by
  have hmimeS : mimeForName SESSION_FILE_NAME_SIGN = "application/pdf" := by decide
  have hmimeE : mimeForName SESSION_FILE_NAME_EDIT = "application/pdf" := by decide
  constructor <;>
    simp [restoreSession, initializeFile, consumePendingFile, loadFileFromOPFS,
      saveFileToOPFS, restoredFileSign, restoredFileEdit, hmimeS, hmimeE]

/-- C5: the PDF_SAVE_DATA handler never lets an exception escape (the tool
view does not crash); when all three steps succeed it has, in order,
persisted the blob under the derived output name, written the same bytes to
the session name, and offered exactly those bytes for download under the
derived name through a later-released object URL, with no error; when step 1
fails nothing is persisted, no download is offered and a single user-visible
error is set; when step 2 fails the output of step 1 is already persisted
but no download is offered and the error is set; when step 3 (the download)
fails, the writes of steps 1 and 2 are retained — the last good state — no
download is offered and the single error is set; the derived name defaults
to the tool-specific timestamped name when the filename is absent. -/
theorem C5_save_data_handler (stem sessionName : String) (blob : Bytes)
    (filename : Option String) (now : Nat) (em : String) (store : OPFSStore) :
    (∀ ok1 ok2 ok3 : Bool,
        (handleSaveData stem sessionName blob filename now ok1 ok2 ok3 em store).crashed = false)
      ∧ (handleSaveData stem sessionName blob filename now true true true em store).store
          (derivedOutputName stem now filename) = some blob
      ∧ (handleSaveData stem sessionName blob filename now true true true em store).store
          sessionName = some blob
      ∧ (handleSaveData stem sessionName blob filename now true true true em store).download
          = some (derivedOutputName stem now filename, blob)
      ∧ (handleSaveData stem sessionName blob filename now true true true em store).error = none
      ∧ (handleSaveData stem sessionName blob filename now true true true em store).urlReleased = true
      ∧ (∀ ok2 ok3 : Bool,
          (handleSaveData stem sessionName blob filename now false ok2 ok3 em store).store = store
            ∧ (handleSaveData stem sessionName blob filename now false ok2 ok3 em store).download = none
            ∧ (handleSaveData stem sessionName blob filename now false ok2 ok3 em store).error
                = some ("Failed to save file: " ++ em))
      ∧ (∀ ok3 : Bool,
          (handleSaveData stem sessionName blob filename now true false ok3 em store).store
              (derivedOutputName stem now filename) = some blob
            ∧ (handleSaveData stem sessionName blob filename now true false ok3 em store).download = none
            ∧ (handleSaveData stem sessionName blob filename now true false ok3 em store).error
                = some ("Failed to save file: " ++ em))
      ∧ (handleSaveData stem sessionName blob filename now true true false em store).store
          (derivedOutputName stem now filename) = some blob
      ∧ (handleSaveData stem sessionName blob filename now true true false em store).store
          sessionName = some blob
      ∧ (handleSaveData stem sessionName blob filename now true true false em store).download = none
      ∧ (handleSaveData stem sessionName blob filename now true true false em store).error
          = some ("Failed to save file: " ++ em)
      ∧ derivedOutputName stem now none = stem ++ toString now ++ ".pdf" := by
  refine ⟨?_, ?_, ?_, ?_, ?_, ?_, ?_, ?_, ?_, ?_, ?_, ?_, ?_⟩
  · intro ok1 ok2 ok3
    cases ok1 <;> cases ok2 <;> cases ok3 <;> rfl
  all_goals
    simp [handleSaveData, saveFileToOPFS, derivedOutputName]

/-! ## Artifact store lemmas -/

theorem insertDesc_perm (e : StoredSignature) (l : SigRecords) :
    (insertDesc e l).Perm (e :: l) := by
  induction l with
  | nil => exact List.Perm.refl _
  | cons x xs ih =>
      unfold insertDesc
      by_cases hc : e.createdAt < x.createdAt
      · simp only [if_pos hc]
        exact (ih.cons x).trans (List.Perm.swap e x xs)
      · simp only [if_neg hc]
        exact List.Perm.refl _

theorem sortNewestFirst_perm (l : SigRecords) : (sortNewestFirst l).Perm l := by
  induction l with
  | nil => exact List.Perm.refl _
  | cons x xs ih => exact (insertDesc_perm x (sortNewestFirst xs)).trans (ih.cons x)

theorem insertDesc_pairwise (e : StoredSignature) (l : SigRecords)
    (h : l.Pairwise fun a b => b.createdAt ≤ a.createdAt) :
    (insertDesc e l).Pairwise fun a b => b.createdAt ≤ a.createdAt := by
  induction l with
  | nil => simp [insertDesc]
  | cons x xs ih =>
      rw [List.pairwise_cons] at h
      obtain ⟨hx, hxs⟩ := h
      unfold insertDesc
      by_cases hc : e.createdAt < x.createdAt
      · simp only [if_pos hc]
        rw [List.pairwise_cons]
        refine ⟨?_, ih hxs⟩
        intro y hy
        rcases List.mem_cons.mp ((insertDesc_perm e xs).mem_iff.mp hy) with hy1 | hy1
        · exact hy1 ▸ le_of_lt hc
        · exact hx y hy1
      · simp only [if_neg hc]
        push_neg at hc
        rw [List.pairwise_cons]
        refine ⟨?_, List.pairwise_cons.mpr ⟨hx, hxs⟩⟩
        intro y hy
        rcases List.mem_cons.mp hy with hy1 | hy1
        · exact hy1 ▸ hc
        · exact le_trans (hx y hy1) hc

theorem sortNewestFirst_pairwise (l : SigRecords) :
    (sortNewestFirst l).Pairwise fun a b => b.createdAt ≤ a.createdAt := by
  induction l with
  | nil => simp [sortNewestFirst]
  | cons x xs ih => exact insertDesc_pairwise x (sortNewestFirst xs) ih

theorem hasId_insertByKey_self (e : StoredSignature) (l : SigRecords) :
    hasId (insertByKey e l) e.id = true := by
  induction l with
  | nil => simp [insertByKey, hasId]
  | cons x xs ih =>
      unfold insertByKey
      split
      · simp [hasId]
      · simp only [hasId, List.any_cons] at ih ⊢
        rw [ih]
        simp

/-! ## Claim theorems for the artifact store -/

/-- C7 counterexample: when the transaction fails, the connection is not
closed: a failing saveSignature on the empty store settles with the error
while dbClosed is still false — the close registered on the transaction
oncomplete event never runs on the failure path. -/
theorem C7_counterexample :
    (saveSignature { type := "svg", data := "d", width := none, height := none }
        1 "ab" false []).dbClosed = false
      ∧ (saveSignature { type := "svg", data := "d", width := none, height := none }
          1 "ab" false []).result = Except.error "Failed to save signature" := ⟨rfl, rfl⟩

/-- C7 (amended): each artifact-store operation closes the connection when
its transaction completes successfully (for save: when the generated key is
fresh and the transaction commits), but on a request or transaction failure
the promise is rejected without the connection ever being closed. -/
theorem C7_close_only_on_success (sig : NewSignature) (now : Nat)
    (rand i : String) (l : SigRecords)
    (h : hasId l (mkSignatureId now rand) = false) :
    (saveSignature sig now rand true l).dbClosed = true
      ∧ (getAllSignatures true l).dbClosed = true
      ∧ (deleteSignature i true l).dbClosed = true
      ∧ (saveSignature sig now rand false l).dbClosed = false
      ∧ (getAllSignatures false l).dbClosed = false
      ∧ (deleteSignature i false l).dbClosed = false := by
  refine ⟨?_, rfl, rfl, ?_, rfl, rfl⟩ <;>
    simp [saveSignature, h]

/-- Witness for C7: the amended statement on the empty store. -/
theorem C7_witness :
    (saveSignature { type := "svg", data := "d", width := none, height := none }
        2 "cd" true []).dbClosed = true
      ∧ (getAllSignatures true []).dbClosed = true
      ∧ (deleteSignature "sig_2_cd" true []).dbClosed = true
      ∧ (saveSignature { type := "svg", data := "d", width := none, height := none }
          2 "cd" false []).dbClosed = false
      ∧ (getAllSignatures false []).dbClosed = false
      ∧ (deleteSignature "sig_2_cd" false []).dbClosed = false :=
  C7_close_only_on_success { type := "svg", data := "d", width := none, height := none }
    2 "cd" "sig_2_cd" [] rfl

/-- C8 counterexample: the store can return the same id twice. The id is
built from the clock and the random suffix only, and add merely checks the
key against the records still present: save a record while the clock reads
5 and the random suffix is aaaaa, delete it, and a second save under the
same clock reading and suffix succeeds and returns the identical id. -/
theorem C8_counterexample :
    (saveSignature { type := "svg", data := "d1", width := none, height := none }
        5 "aaaaa" true []).result
      = Except.ok (mkSignatureId 5 "aaaaa",
          [{ id := mkSignatureId 5 "aaaaa", type := "svg", data := "d1",
             createdAt := 5, width := none, height := none }])
      ∧ (deleteSignature (mkSignatureId 5 "aaaaa") true
          [{ id := mkSignatureId 5 "aaaaa", type := "svg", data := "d1",
             createdAt := 5, width := none, height := none }]).result = Except.ok []
      ∧ (saveSignature { type := "svg", data := "d2", width := none, height := none }
          5 "aaaaa" true []).result
        = Except.ok (mkSignatureId 5 "aaaaa",
            [{ id := mkSignatureId 5 "aaaaa", type := "svg", data := "d2",
               createdAt := 5, width := none, height := none }]) := by
  refine ⟨rfl, ?_, rfl⟩
  simp [deleteSignature]

/-- C8 (amended): a successful save returns the id the store itself
generates from its clock and random suffix — the caller-supplied record has
no id field — and that id is distinct from the id of every record still
present in the store when the add runs (add rejects an existing key), and is
a key of the resulting store. Ids of deleted records can recur when the
clock and random suffix repeat. -/
theorem C8_save_id_fresh_among_present (sig : NewSignature) (now : Nat)
    (rand : String) (txOk : Bool) (l : SigRecords) (i : String) (l2 : SigRecords)
    (h : (saveSignature sig now rand txOk l).result = Except.ok (i, l2)) :
    i = mkSignatureId now rand
      ∧ hasId l i = false
      ∧ hasId l2 i = true := by
  unfold saveSignature at h
  by_cases h1 : hasId l (mkSignatureId now rand)
  · simp [h1] at h
  · cases txOk with
    | false => simp [h1] at h
    | true =>
        simp only [h1, if_false, Bool.false_eq_true, if_true, ite_false, ite_true,
          Except.ok.injEq, Prod.mk.injEq] at h
        obtain ⟨hi, hl2⟩ := h
        subst hi
        subst hl2
        exact ⟨rfl, by simpa using h1, hasId_insertByKey_self _ l⟩

/-- Witness for C8: the amended statement evaluated for a concrete save on
the empty store. -/
theorem C8_witness :
    "sig_7_xy" = mkSignatureId 7 "xy"
      ∧ hasId [] "sig_7_xy" = false
      ∧ hasId [{ id := "sig_7_xy", type := "svg", data := "d",
                 createdAt := 7, width := none, height := none }] "sig_7_xy" = true :=
  C8_save_id_fresh_among_present
    { type := "svg", data := "d", width := none, height := none }
    7 "xy" true [] "sig_7_xy"
    [{ id := "sig_7_xy", type := "svg", data := "d",
       createdAt := 7, width := none, height := none }] rfl

/-- C9 counterexample: saving r1 then r2 within the same clock reading (so
both carry createdAt 5, with random suffixes aaaaa then zzzzz) puts them in
key order r1, r2; getAll then returns r1 before r2 — the stable sort leaves
equal timestamps in key order — contradicting the claimed r2-before-r1
order. -/
theorem C9_counterexample :
    (saveSignature { type := "svg", data := "d1", width := none, height := none }
        5 "aaaaa" true []).result
      = Except.ok (mkSignatureId 5 "aaaaa",
          [{ id := mkSignatureId 5 "aaaaa", type := "svg", data := "d1",
             createdAt := 5, width := none, height := none }])
      ∧ (saveSignature { type := "svg", data := "d2", width := none, height := none }
          5 "zzzzz" true
          [{ id := mkSignatureId 5 "aaaaa", type := "svg", data := "d1",
             createdAt := 5, width := none, height := none }]).result
        = Except.ok (mkSignatureId 5 "zzzzz",
            [{ id := mkSignatureId 5 "aaaaa", type := "svg", data := "d1",
               createdAt := 5, width := none, height := none },
             { id := mkSignatureId 5 "zzzzz", type := "svg", data := "d2",
               createdAt := 5, width := none, height := none }])
      ∧ (getAllSignatures true
          [{ id := mkSignatureId 5 "aaaaa", type := "svg", data := "d1",
             createdAt := 5, width := none, height := none },
           { id := mkSignatureId 5 "zzzzz", type := "svg", data := "d2",
             createdAt := 5, width := none, height := none }]).result
        = Except.ok
            [{ id := mkSignatureId 5 "aaaaa", type := "svg", data := "d1",
               createdAt := 5, width := none, height := none },
             { id := mkSignatureId 5 "zzzzz", type := "svg", data := "d2",
               createdAt := 5, width := none, height := none }] := by
  refine ⟨rfl, ?_, ?_⟩ <;> decide

/-- C9 (amended): getAll returns exactly the stored records (a permutation,
nothing added or dropped) sorted by createdAt in non-increasing order, so a
record with a strictly later creation time always precedes a strictly
earlier one; records with equal creation times stay in the key order the
database returns them in, so a later-saved record with an equal timestamp
can follow the earlier one. -/
theorem C9_getAll_sorted_newest_first (l : SigRecords) :
    (getAllSignatures true l).result = Except.ok (sortNewestFirst l)
      ∧ ((sortNewestFirst l).Pairwise fun a b => b.createdAt ≤ a.createdAt)
      ∧ (sortNewestFirst l).Perm l :=
  ⟨rfl, sortNewestFirst_pairwise l, sortNewestFirst_perm l⟩

end PDFCraft
